import Mathlib

/-!
# Verification of the Turicanje bot's hours resolution and ranked-search engine

Shallow embedding of the relevant parts of `app.py`:

* the per-weekday business-hours resolvers `is_open_now_by_day`,
  `get_hours_status_from_columns` (with their inner helpers `check_day`,
  `check_day_status` lifted to top-level definitions) and the legacy
  checker `is_place_open`;
* the tiered search functions `search_exact_in_categories`,
  `search_places_without_location`, `search_places_with_location` and the
  AI-expansion wrappers, modelled over an explicit catalog (a list of
  `Place` rows standing for the `public.places` table) with the SQL
  `WHERE` / `ORDER BY` / `LIMIT` semantics made explicit;
* the result formatter `format_results_list_with_offset` and the
  session/pagination steps of `handle_text_message` and
  `handle_location_message`.

Modelling conventions:

* Python `datetime` values are `PyDateTime` (a proleptic-Gregorian date
  plus a time of day); `date.weekday()`, `timedelta` day arithmetic and
  the `replace(day=...)` out-of-range `ValueError` are modelled exactly.
* Timezone resolution (`pytz.timezone`, `localize`) is collapsed: all
  comparisons in the source happen between datetimes localized in one and
  the same zone, so the embedding works directly with the local wall-clock
  instant `now`.  DST folds/gaps are outside the model.
* The haversine distance computed by SQL uses real trigonometry; the
  embedding abstracts it as a parameter `hav : Int → Int → Int → Int → Int`
  (user lat/lng, place lat/lng ↦ metres).  Every ordering theorem is
  proved for an arbitrary `hav`.
* SQL `ORDER BY k1, k2, ...` is modelled as `List.insertionSort` by the
  lexicographic key; where the key is total (an `id ASC` tiebreak) this is
  the unique compliant order, elsewhere it is one compliant refinement.
* Exceptions are modelled with `Except`; locally caught exception classes
  (`ValueError`/`IndexError` in the schedule parser) are distinguished
  from uncaught ones (`AttributeError`) where the source distinguishes
  them.
-/

/-! ## Small string helpers

Core `String` functions such as `trim`, `splitOn` or `toNat?` do not
reduce well inside kernel-checked evaluation, so the handful of string
operations the source uses (`str.strip`, `str.lower`, `str.split(':')`,
`str.endswith`, slicing, `int(...)`) are re-implemented here on the
underlying character lists with plain structural recursion. -/

/-- The decimal digit character for `d < 10`. -/
def digitChar (d : Nat) : Char := Char.ofNat (48 + d)

/-- Two-digit zero padding, as `strftime "%H"` / `"%M"` produce
(all field values in scope are < 100). -/
def pad2 (n : Nat) : String :=
  if n < 10 then String.mk ['0', digitChar n]
  else String.mk [digitChar (n / 10), digitChar (n % 10)]

/-- ASCII/latin-1 whitespace, what Python's `str.strip()` removes on the
data in scope. -/
def isSpaceChar (c : Char) : Bool :=
  c == ' ' || c == '\t' || c == '\n' || c == '\r' ||
    c == (Char.ofNat 11) || c == (Char.ofNat 12)

/-- Python `str.strip()`. -/
def pyStrip (s : String) : String :=
  String.mk (((s.data.dropWhile isSpaceChar).reverse.dropWhile isSpaceChar).reverse)

/-- Python `str.lower()` (ASCII data in scope). -/
def pyLower (s : String) : String :=
  String.mk (s.data.map Char.toLower)

/-- Python `str.endswith(suffix)`. -/
def pyEndsWith (s suffix : String) : Bool :=
  let rec go : List Char → List Char → Bool
    | _, [] => true
    | [], _ :: _ => false
    | a :: as, b :: bs => a == b && go as bs
  go s.data.reverse suffix.data.reverse

/-- Python slicing `s[:-n]` (for `n ≤ len(s)`). -/
def pyDropRight (s : String) (n : Nat) : String :=
  String.mk (s.data.take (s.data.length - n))

/-- Python `len(s)` (character count; the data in scope is ASCII). -/
def pyLen (s : String) : Nat := s.data.length

/-- Python `s.split(":")` on character lists. -/
def splitOnColon : List Char → List (List Char)
  | [] => [[]]
  | c :: rest =>
    if c == ':' then [] :: splitOnColon rest
    else
      match splitOnColon rest with
      | [] => [[c]]
      | seg :: segs => (c :: seg) :: segs

/-- Decimal value of a digit string (caller checks `all isDigit`). -/
def digitsVal (l : List Char) : Nat :=
  l.foldl (fun a c => a * 10 + (c.toNat - 48)) 0

/-- `hasPrefixChars p s` : `p` is a prefix of `s` (on character lists). -/
def hasPrefixChars : List Char → List Char → Bool
  | [], _ => true
  | _ :: _, [] => false
  | a :: as, b :: bs => a == b && hasPrefixChars as bs

/-- `containsChars sub s` : `sub` occurs contiguously inside `s`. -/
def containsChars (sub : List Char) : List Char → Bool
  | [] => sub.isEmpty
  | s@(_ :: rest) => hasPrefixChars sub s || containsChars sub rest

/-- SQL `LOWER(s) LIKE '%pat%'` for a wildcard-free pattern `pat`:
substring containment against the lower-cased string. -/
def sqlLikeContains (s pat : String) : Bool :=
  containsChars pat.data (s.data.map Char.toLower)

/-- SQL `LOWER(s) = pat`. -/
def sqlLowerEq (s pat : String) : Bool :=
  String.mk (s.data.map Char.toLower) == pat

/-! ## `normalize_search_term` (app.py lines 103-142)

Singular/plural variations of a Spanish search term, in the exact order
the source appends them (each guarded by an `x not in variations` check).
-/

/-- Python `if x not in variations: variations.append(x)`. -/
def addIfNew (xs : List String) (x : String) : List String :=
  if x ∈ xs then xs else xs ++ [x]

/-- `normalize_search_term`: lower-cases and strips the term, then adds
singular/plural variations per the source's Spanish heuristics. -/
def normalize_search_term (term : String) : List String :=
  if term = "" then []
  else
    let t := pyStrip (pyLower term)
    let vs := [t]
    let vs :=
      if pyEndsWith t "s" && pyLen t > 2 then
        let vs := addIfNew vs (pyDropRight t 1)
        if pyEndsWith t "es" && pyLen t > 3 then
          addIfNew vs (pyDropRight t 2 ++ "a")
        else vs
      else vs
    if !(pyEndsWith t "s") then
      let vs := addIfNew vs (t ++ "s")
      if pyEndsWith t "a" || pyEndsWith t "e" || pyEndsWith t "i" ||
         pyEndsWith t "o" || pyEndsWith t "u" then vs
      else addIfNew vs (t ++ "es")
    else vs

/-! ## Dates, times and Python `datetime` arithmetic -/

/-- A time of day (hour/minute/second), what `datetime.time` holds. -/
structure Tod where
  hh : Nat
  mm : Nat
  ss : Nat
deriving DecidableEq, Repr

/-- Seconds since midnight; `datetime.time` comparisons order by this. -/
def Tod.secs (t : Tod) : Nat := t.hh * 3600 + t.mm * 60 + t.ss

/-- A proleptic-Gregorian calendar date, what `datetime.date` holds. -/
structure Pdate where
  year : Nat
  month : Nat
  day : Nat
deriving DecidableEq, Repr

def isLeapYear (y : Nat) : Bool :=
  (y % 4 == 0 && y % 100 != 0) || y % 400 == 0

def daysInMonth (y m : Nat) : Nat :=
  if m == 2 then (if isLeapYear y then 29 else 28)
  else if m == 4 || m == 6 || m == 9 || m == 11 then 30
  else 31

/-- Days in all years strictly before year `y` (proleptic Gregorian),
matching Python's `datetime.date.toordinal` bookkeeping. -/
def daysBeforeYear (y : Nat) : Nat :=
  let n := y - 1
  365 * n + n / 4 - n / 100 + n / 400

/-- Days in the months of year `y` strictly before month `m`. -/
def daysBeforeMonth (y m : Nat) : Nat :=
  (List.range (m - 1)).foldl (fun acc i => acc + daysInMonth y (i + 1)) 0

/-- Python `date.toordinal()`: day number with `0001-01-01` ↦ 1. -/
def Pdate.toordinal (d : Pdate) : Nat :=
  daysBeforeYear d.year + daysBeforeMonth d.year d.month + d.day

/-- Python `date.weekday()`: Monday = 0 … Sunday = 6
(`0001-01-01` was a Monday in the proleptic Gregorian calendar). -/
def Pdate.weekday (d : Pdate) : Nat :=
  (d.toordinal + 6) % 7

/-- The day after `d` (what `timedelta(days=1)` addition yields). -/
def Pdate.next (d : Pdate) : Pdate :=
  if d.day < daysInMonth d.year d.month then ⟨d.year, d.month, d.day + 1⟩
  else if d.month < 12 then ⟨d.year, d.month + 1, 1⟩
  else ⟨d.year + 1, 1, 1⟩

/-- The day before `d`. -/
def Pdate.prev (d : Pdate) : Pdate :=
  if 1 < d.day then ⟨d.year, d.month, d.day - 1⟩
  else if 1 < d.month then ⟨d.year, d.month - 1, daysInMonth d.year (d.month - 1)⟩
  else ⟨d.year - 1, 12, 31⟩

/-- `date + timedelta(days=k)` for a possibly negative `k`
(the source only ever uses `k ∈ [-6, 6]`). -/
def Pdate.addDays (d : Pdate) (k : Int) : Pdate :=
  match k with
  | .ofNat n => Nat.rec d (fun _ acc => acc.next) n
  | .negSucc n => Nat.rec d.prev (fun _ acc => acc.prev) n

/-- A `datetime`: a date plus a time of day (one fixed timezone). -/
structure PyDateTime where
  date : Pdate
  tod : Tod
deriving DecidableEq, Repr

/-- `datetime` comparison: by date, then by time of day.  All dates the
source compares are normalized, so lexicographic order on
`(toordinal, seconds)` is Python's order. -/
def PyDateTime.le (a b : PyDateTime) : Bool :=
  a.date.toordinal < b.date.toordinal ||
    (a.date.toordinal == b.date.toordinal && a.tod.secs ≤ b.tod.secs)

/-- `dt.replace(day=dt.day + 1)`: stays inside the month or raises
`ValueError` (modelled as `none`) — it does NOT roll into the next
month, unlike `timedelta` addition. -/
def PyDateTime.replaceDaySucc (a : PyDateTime) : Option PyDateTime :=
  if a.date.day + 1 ≤ daysInMonth a.date.year a.date.month then
    some ⟨⟨a.date.year, a.date.month, a.date.day + 1⟩, a.tod⟩
  else none

/-! ## `parse_time` (the helper closure in `is_open_now_by_day` /
`get_hours_status_from_columns`, app.py lines 203-219 and 297-311)

`strptime` with formats `%H:%M:%S` then `%H:%M`; the sentinel `24:00` /
`24:00:00` is first rewritten to `23:59:59`.  A failed parse raises
`ValueError` (modelled as `none`). -/

/-- One `strptime` numeric field of width ≤ 2 (`%H`, `%M`, `%S`):
1 or 2 digits, value-checked against `hi`. -/
def parseField2 (hi : Nat) (l : List Char) : Option Nat :=
  if l ≠ [] && l.length ≤ 2 && l.all Char.isDigit then
    let n := digitsVal l
    if n ≤ hi then some n else none
  else none

/-- `datetime.strptime(s, "%H:%M:%S").time()`. -/
def strptimeHMS (s : String) : Option Tod :=
  match splitOnColon s.data with
  | [h, m, sec] =>
    match parseField2 23 h, parseField2 59 m, parseField2 59 sec with
    | some hh, some mm, some ss => some ⟨hh, mm, ss⟩
    | _, _, _ => none
  | _ => none

/-- `datetime.strptime(s, "%H:%M").time()`. -/
def strptimeHM (s : String) : Option Tod :=
  match splitOnColon s.data with
  | [h, m] =>
    match parseField2 23 h, parseField2 59 m with
    | some hh, some mm => some ⟨hh, mm, 0⟩
    | _, _ => none
  | _ => none

/-- `parse_time`: strip, rewrite the `24:00` sentinel, then try
`%H:%M:%S` and `%H:%M` in that order; `none` models the final
`raise ValueError`. -/
def parse_time (time_str : String) : Option Tod :=
  let s := pyStrip time_str
  let s := if s = "24:00:00" || s = "24:00" then "23:59:59" else s
  match strptimeHMS s with
  | some t => some t
  | none => strptimeHM s

/-! ## The `Place` data model (row of `public.places`) -/

/-- A row of `public.places`, restricted to the columns the modelled
functions read.  Weekday slots are nullable text columns. -/
structure Place where
  id : Nat
  name : String
  category : String
  categories : List String
  products : List String
  cashback : Bool
  priority : Int
  lat : Option Int
  lng : Option Int
  delivery : Bool
  url_extra : String
  url_order : String
  mon_open : Option String := none
  mon_close : Option String := none
  tue_open : Option String := none
  tue_close : Option String := none
  wed_open : Option String := none
  wed_close : Option String := none
  thu_open : Option String := none
  thu_close : Option String := none
  fri_open : Option String := none
  fri_close : Option String := none
  sat_open : Option String := none
  sat_close : Option String := none
  sun_open : Option String := none
  sun_close : Option String := none
deriving DecidableEq, Repr

/-- `DAY_MAP[i]` first component: the `*_open` column for weekday `i`. -/
def slotOpen (p : Place) : Nat → Option String
  | 0 => p.mon_open
  | 1 => p.tue_open
  | 2 => p.wed_open
  | 3 => p.thu_open
  | 4 => p.fri_open
  | 5 => p.sat_open
  | 6 => p.sun_open
  | _ => none

/-- `DAY_MAP[i]` second component: the `*_close` column for weekday `i`. -/
def slotClose (p : Place) : Nat → Option String
  | 0 => p.mon_close
  | 1 => p.tue_close
  | 2 => p.wed_close
  | 3 => p.thu_close
  | 4 => p.fri_close
  | 5 => p.sat_close
  | 6 => p.sun_close
  | _ => none

/-- Python truthiness test `not x` on a nullable string column:
`None` and `""` are falsy. -/
def strFalsy : Option String → Bool
  | none => true
  | some s => s == ""

/-! ## `is_open_now_by_day` (app.py lines 179-271)

The inner closure `check_day` is lifted to a top-level function with the
captured variables (`place`, `now`, `weekday`) passed explicitly. -/

/-- `check_day(day_index)` inside `is_open_now_by_day`: evaluates weekday
slot `day_index` anchored to `now.date() + (day_index - now.weekday())`
days; a cross-midnight close is pushed to the next day by
`replace(day=day+1)`, whose `ValueError` (and any parse `ValueError`) is
swallowed into `False`. -/
def check_day (place : Place) (now : PyDateTime) (day_index : Nat) : Bool :=
  let open_time := slotOpen place day_index
  let close_time := slotClose place day_index
  if strFalsy open_time || strFalsy close_time then false
  else
    match parse_time (open_time.getD ""), parse_time (close_time.getD "") with
    | some open_t, some close_t =>
      let days_diff : Int := (day_index : Int) - (now.date.weekday : Int)
      let check_date := now.date.addDays days_diff
      let open_dt : PyDateTime := ⟨check_date, open_t⟩
      let close_dt : PyDateTime := ⟨check_date, close_t⟩
      if close_dt.le open_dt then
        match close_dt.replaceDaySucc with
        | some close_dt' => open_dt.le now && now.le close_dt'
        | none => false
      else open_dt.le now && now.le close_dt
    | _, _ => false

/-- `is_open_now_by_day`: today's slot first; if closed and the current
hour is before 6 AM, re-check yesterday's weekday slot
(`(weekday - 1) % 7`, i.e. `+ 6 (mod 7)`). -/
def is_open_now_by_day (place : Place) (now : PyDateTime) : Bool :=
  if check_day place now now.date.weekday then true
  else if now.tod.hh < 6 then
    check_day place now ((now.date.weekday + 6) % 7)
  else false

/-! ## `get_hours_status_from_columns` (app.py lines 273-386) -/

/-- `check_day_status(day_index)` inside `get_hours_status_from_columns`:
like `check_day` but always anchored to `now.date()` (no `days_diff`
shift), returning `(is_open, hours_text, has_hours)`. -/
def check_day_status (place : Place) (now : PyDateTime) (day_index : Nat) :
    Bool × String × Bool :=
  let open_time := slotOpen place day_index
  let close_time := slotClose place day_index
  if strFalsy open_time || strFalsy close_time then (false, "", false)
  else
    match parse_time (open_time.getD ""), parse_time (close_time.getD "") with
    | some open_t, some close_t =>
      let open_dt : PyDateTime := ⟨now.date, open_t⟩
      let close_dt : PyDateTime := ⟨now.date, close_t⟩
      let closeRes : Option PyDateTime :=
        if close_dt.le open_dt then close_dt.replaceDaySucc else some close_dt
      match closeRes with
      | some close_dt' =>
        if open_dt.le now && now.le close_dt' then
          (true, "hasta " ++ pad2 close_t.hh ++ ":" ++ pad2 close_t.mm, true)
        else
          (false, "abre a las " ++ pad2 open_t.hh ++ ":" ++ pad2 open_t.mm, true)
      | none => (false, "", false)
    | _, _ => (false, "", false)

/-- Spanish weekday names, `day_names_es` in the source. -/
def dayNameEs : Nat → String
  | 0 => "lunes"
  | 1 => "martes"
  | 2 => "miércoles"
  | 3 => "jueves"
  | 4 => "viernes"
  | 5 => "sábado"
  | _ => "domingo"

/-- The `for offset in range(1, 8)` scan for the next weekday with a
defined slot (step 3 of `get_hours_status_from_columns`); `fuel` counts
the offsets still to try. -/
def scanNextOpening (place : Place) (weekday : Nat) (offset fuel : Nat) :
    Bool × String × Bool :=
  match fuel with
  | 0 => (false, "horario no disponible", false)
  | fuel' + 1 =>
    let idx := (weekday + offset) % 7
    if !strFalsy (slotOpen place idx) && !strFalsy (slotClose place idx) then
      match parse_time ((slotOpen place idx).getD "") with
      | some t =>
        if offset == 1 then
          (false, "abre mañana a las " ++ pad2 t.hh ++ ":" ++ pad2 t.mm, true)
        else
          (false, "abre el " ++ dayNameEs idx ++ " a las " ++
            pad2 t.hh ++ ":" ++ pad2 t.mm, true)
      | none => scanNextOpening place weekday (offset + 1) fuel'
    else scanNextOpening place weekday (offset + 1) fuel'

/-- `get_hours_status_from_columns`: today's status, the before-6AM
previous-day re-check, then the 7-day scan when today has no hours. -/
def get_hours_status_from_columns (place : Place) (now : PyDateTime) :
    Bool × String × Bool :=
  let w := now.date.weekday
  let (is_open, hours_text, has_hours) := check_day_status place now w
  if is_open then (true, hours_text, has_hours)
  else
    let prevHit : Option (Bool × String × Bool) :=
      if now.tod.hh < 6 then
        let (po, pt, ph) := check_day_status place now ((w + 6) % 7)
        if po then some (true, pt, ph) else none
      else none
    match prevHit with
    | some r => r
    | none =>
      if !has_hours then scanNextOpening place w 1 7
      else (false, if hours_text ≠ "" then hours_text else "horario no disponible",
            has_hours)

/-! ## Decimal rendering helpers -/

/-- Decimal digits of `n` (with fuel, `fuel > n` suffices). -/
def natToChars : Nat → Nat → List Char
  | 0, _ => []
  | fuel + 1, n =>
    if n < 10 then [digitChar n]
    else natToChars fuel (n / 10) ++ [digitChar (n % 10)]

/-- Decimal rendering of a natural number. -/
def natToString (n : Nat) : String := String.mk (natToChars (n + 1) n)

/-- `format_distance` (app.py lines 513-517): `"N m"` под 1000, else
`"X.X km"`.  Distances are abstract integers in this model, so the
tenths digit is by truncation (the float `:.1f` rounding mode of the
source is not modelled). -/
def format_distance (meters : Int) : String :=
  if meters < 1000 then natToString meters.toNat ++ " m"
  else natToString (meters / 1000).toNat ++ "." ++
    natToString ((meters % 1000) / 100).toNat ++ " km"

/-! ## SQL ordering keys

`ORDER BY CASE WHEN cashback THEN 1 ELSE 0 END DESC, priority DESC, ...`
is the ascending lexicographic order on the key tuples below
(`cashRank` = 0 for cashback places, priority negated). -/

/-- Sort rank of the cashback flag: cashback places first. -/
def cashRank (p : Place) : Int := if p.cashback then 0 else 1

/-- Ascending lexicographic order on 3-component keys. -/
def lex3Le (x y : Int × Int × Int) : Prop :=
  x.1 < y.1 ∨ (x.1 = y.1 ∧ (x.2.1 < y.2.1 ∨ (x.2.1 = y.2.1 ∧ x.2.2 ≤ y.2.2)))

/-- Ascending lexicographic order on 4-component keys. -/
def lex4Le (x y : Int × Int × Int × Int) : Prop :=
  x.1 < y.1 ∨ (x.1 = y.1 ∧ (x.2.1 < y.2.1 ∨ (x.2.1 = y.2.1 ∧
    (x.2.2.1 < y.2.2.1 ∨ (x.2.2.1 = y.2.2.1 ∧ x.2.2.2 ≤ y.2.2.2)))))

instance : DecidableRel lex3Le := fun x y => by
  unfold lex3Le; exact inferInstance

instance : DecidableRel lex4Le := fun x y => by
  unfold lex4Le; exact inferInstance

instance : IsTotal (Int × Int × Int) lex3Le :=
  ⟨by rintro ⟨a1, a2, a3⟩ ⟨b1, b2, b3⟩; unfold lex3Le; dsimp only; omega⟩

instance : IsTrans (Int × Int × Int) lex3Le :=
  ⟨by rintro ⟨a1, a2, a3⟩ ⟨b1, b2, b3⟩ ⟨c1, c2, c3⟩; unfold lex3Le; dsimp only; omega⟩

instance : IsTotal (Int × Int × Int × Int) lex4Le :=
  ⟨by rintro ⟨a1, a2, a3, a4⟩ ⟨b1, b2, b3, b4⟩; unfold lex4Le; dsimp only; omega⟩

instance : IsTrans (Int × Int × Int × Int) lex4Le :=
  ⟨by rintro ⟨a1, a2, a3, a4⟩ ⟨b1, b2, b3, b4⟩ ⟨c1, c2, c3, c4⟩
      unfold lex4Le; dsimp only; omega⟩

/-- `ORDER BY cashback DESC, priority DESC, id ASC` (the
location-less searches). -/
def keyNoLoc (p : Place) : Int × Int × Int := (cashRank p, -p.priority, (p.id : Int))

def placeLeNoLoc (a b : Place) : Prop := lex3Le (keyNoLoc a) (keyNoLoc b)

instance : DecidableRel placeLeNoLoc := fun a b =>
  inferInstanceAs (Decidable (lex3Le _ _))

instance : IsTotal Place placeLeNoLoc := ⟨fun a b => IsTotal.total (r := lex3Le) _ _⟩

instance : IsTrans Place placeLeNoLoc :=
  ⟨fun _ _ _ h h' => IsTrans.trans (r := lex3Le) _ _ _ h h'⟩

/-- `product_match_score` of the AI-expansion queries: the number of
`categories` elements matching any of the OR'd `LIKE` patterns. -/
def product_match_score (terms : List String) (p : Place) : Nat :=
  p.categories.countP (fun item => terms.any (fun t => sqlLikeContains item t))

/-- `ORDER BY cashback DESC, priority DESC, match-count DESC, id ASC`
(the AI-expansion search without location). -/
def keyNoLocAI (terms : List String) (p : Place) : Int × Int × Int × Int :=
  (cashRank p, -p.priority, -(product_match_score terms p : Int), (p.id : Int))

def placeLeNoLocAI (terms : List String) (a b : Place) : Prop :=
  lex4Le (keyNoLocAI terms a) (keyNoLocAI terms b)

instance (terms : List String) : DecidableRel (placeLeNoLocAI terms) := fun a b =>
  inferInstanceAs (Decidable (lex4Le _ _))

instance (terms : List String) : IsTotal Place (placeLeNoLocAI terms) :=
  ⟨fun a b => IsTotal.total (r := lex4Le) _ _⟩

instance (terms : List String) : IsTrans Place (placeLeNoLocAI terms) :=
  ⟨fun _ _ _ h h' => IsTrans.trans (r := lex4Le) _ _ _ h h'⟩

/-- `ORDER BY cashback DESC, priority DESC, distance_meters ASC`
on SQL rows carrying the computed `distance_meters` column. -/
def pairLeLoc (a b : Place × Int) : Prop :=
  lex3Le (cashRank a.1, -a.1.priority, a.2) (cashRank b.1, -b.1.priority, b.2)

instance : DecidableRel pairLeLoc := fun a b =>
  inferInstanceAs (Decidable (lex3Le _ _))

instance : IsTotal (Place × Int) pairLeLoc := ⟨fun a b => IsTotal.total (r := lex3Le) _ _⟩

instance : IsTrans (Place × Int) pairLeLoc :=
  ⟨fun _ _ _ h h' => IsTrans.trans (r := lex3Le) _ _ _ h h'⟩

/-- `ORDER BY cashback DESC, priority DESC, product_match_score DESC,
distance_meters ASC` (the AI-expansion search with location). -/
def pairLeLocAI (terms : List String) (a b : Place × Int) : Prop :=
  lex4Le (cashRank a.1, -a.1.priority, -(product_match_score terms a.1 : Int), a.2)
    (cashRank b.1, -b.1.priority, -(product_match_score terms b.1 : Int), b.2)

instance (terms : List String) : DecidableRel (pairLeLocAI terms) := fun a b =>
  inferInstanceAs (Decidable (lex4Le _ _))

instance (terms : List String) : IsTotal (Place × Int) (pairLeLocAI terms) :=
  ⟨fun a b => IsTotal.total (r := lex4Le) _ _⟩

instance (terms : List String) : IsTrans (Place × Int) (pairLeLocAI terms) :=
  ⟨fun _ _ _ h h' => IsTrans.trans (r := lex4Le) _ _ _ h h'⟩

/-! ## Search results and SQL predicates -/

/-- A `SearchResult`: the `Place` row annotated at query time with
`is_open_now` (and distance when the user's location is known), as the
search functions build it before returning. -/
structure SRes where
  place : Place
  is_open_now : Bool
  distance_meters : Option Int
  distance_text : String
deriving DecidableEq, Repr

/-- `get_today_hours_filter()` (app.py lines 162-177): the SQL condition
`<day>_open IS NOT NULL AND <day>_close IS NOT NULL` for today. -/
def today_filter_ok (now : PyDateTime) (p : Place) : Bool :=
  (slotOpen p now.date.weekday).isSome && (slotClose p now.date.weekday).isSome

/-- Tier-1 `WHERE`: some element of `categories` equals (lower-cased) one
of the term variations. -/
def exactCatPred (variations : List String) (p : Place) : Bool :=
  p.categories.any (fun item => variations.any (fun v => sqlLowerEq item v))

/-- Tier-2 `WHERE`: some element of `categories` or `products`, or the
`category` label, contains one of the variations as a substring. -/
def broadPred (variations : List String) (p : Place) : Bool :=
  p.categories.any (fun item => variations.any (fun v => sqlLikeContains item v)) ||
  p.products.any (fun item => variations.any (fun v => sqlLikeContains item v)) ||
  variations.any (fun v => sqlLikeContains p.category v)

/-- The AI-expansion `WHERE`: like `broadPred`, with the expanded terms
as patterns (the source does not lower-case them). -/
def expandedPred (terms : List String) (p : Place) : Bool :=
  p.categories.any (fun item => terms.any (fun t => sqlLikeContains item t)) ||
  p.products.any (fun item => terms.any (fun t => sqlLikeContains item t)) ||
  terms.any (fun t => sqlLikeContains p.category t)

/-- Row annotation in the location-less searches:
`place["is_open_now"] = is_open_now_by_day(place)`. -/
def annotateNoLoc (now : PyDateTime) (p : Place) : SRes :=
  { place := p, is_open_now := is_open_now_by_day p now,
    distance_meters := none, distance_text := "" }

/-- The SQL `distance_meters` column: the haversine value when both
coordinates are present, else the sentinel `999999`. -/
def distOf (hav : Int → Int → Int → Int → Int) (ulat ulng : Int) (p : Place) : Int :=
  match p.lat, p.lng with
  | some la, some lo => hav ulat ulng la lo
  | _, _ => 999999

/-- Row annotation in the with-location searches: `is_open_now` plus
`distance_text` (only for truthy distances below the sentinel). -/
def annotateLoc (now : PyDateTime) (pr : Place × Int) : SRes :=
  { place := pr.1, is_open_now := is_open_now_by_day pr.1 now,
    distance_meters := some pr.2,
    distance_text := if pr.2 ≠ 0 && pr.2 < 999999 then format_distance pr.2 else "" }

/-! ## The tiered search functions (app.py lines 1329-1866)

Each models the corresponding Python function with the database table
passed explicitly as `catalog`; AI-expanded terms are passed as the
`terms` argument (the expansion collaborator is external). -/

/-- `search_exact_in_categories` (lines 1329-1405). -/
def search_exact_in_categories (now : PyDateTime) (catalog : List Place)
    (craving : String) (lim : Nat) : List SRes :=
  if craving = "" then []
  else
    let variations := normalize_search_term craving
    let rows := (List.insertionSort placeLeNoLoc
      (catalog.filter (fun p => exactCatPred variations p && today_filter_ok now p))).take lim
    rows.map (annotateNoLoc now)

/-- `search_places_without_location` (lines 1407-1499): Tier 1 exact,
then on an empty result the Tier-2 broad `LIKE` query. -/
def search_places_without_location (now : PyDateTime) (catalog : List Place)
    (craving : String) (lim : Nat) : List SRes :=
  if craving = "" then []
  else
    let exact_results := search_exact_in_categories now catalog craving lim
    if exact_results ≠ [] then exact_results
    else
      let variations := normalize_search_term craving
      let rows := (List.insertionSort placeLeNoLoc
        (catalog.filter (fun p => broadPred variations p && today_filter_ok now p))).take lim
      rows.map (annotateNoLoc now)

/-- `search_places_without_location_ai` (lines 1501-1591): exact-term
stage first; on an empty result the expansion query with its extra
match-count sort key.  Returns `(results, used_expansion)`. -/
def search_places_without_location_ai (now : PyDateTime) (catalog : List Place)
    (craving : String) (terms : List String) (lim : Nat) : List SRes × Bool :=
  if craving = "" then ([], false)
  else
    let exact_results := search_places_without_location now catalog craving lim
    if exact_results ≠ [] then (exact_results, false)
    else
      let rows := (List.insertionSort (placeLeNoLocAI terms)
        (catalog.filter (fun p => expandedPred terms p && today_filter_ok now p))).take lim
      (rows.map (annotateNoLoc now), true)

/-- `search_places_with_location` (lines 1593-1754): exact-in-categories
with distance ordering, falling back to the broad `LIKE` query. -/
def search_places_with_location (hav : Int → Int → Int → Int → Int)
    (now : PyDateTime) (catalog : List Place) (craving : String)
    (ulat ulng : Int) (lim : Nat) : List SRes :=
  if craving = "" then []
  else
    let variations := normalize_search_term craving
    let exactRows := (List.insertionSort pairLeLoc
      ((catalog.filter (fun p => exactCatPred variations p && today_filter_ok now p)).map
        (fun p => (p, distOf hav ulat ulng p)))).take lim
    if exactRows ≠ [] then exactRows.map (annotateLoc now)
    else
      let broadRows := (List.insertionSort pairLeLoc
        ((catalog.filter (fun p => broadPred variations p && today_filter_ok now p)).map
          (fun p => (p, distOf hav ulat ulng p)))).take lim
      broadRows.map (annotateLoc now)

/-- `search_places_with_location_ai` (lines 1756-1866): exact-term stage
first; on an empty result the expansion query, which orders by
`product_match_score DESC` BEFORE `distance_meters ASC`. -/
def search_places_with_location_ai (hav : Int → Int → Int → Int → Int)
    (now : PyDateTime) (catalog : List Place) (craving : String)
    (ulat ulng : Int) (terms : List String) (lim : Nat) : List SRes × Bool :=
  if craving = "" then ([], false)
  else
    let exact_results := search_places_with_location hav now catalog craving ulat ulng lim
    if exact_results ≠ [] then (exact_results, false)
    else
      let rows := (List.insertionSort (pairLeLocAI terms)
        ((catalog.filter (fun p => expandedPred terms p && today_filter_ok now p)).map
          (fun p => (p, distOf hav ulat ulng p)))).take lim
      (rows.map (annotateLoc now), true)

/-! ## Result formatter (app.py lines 1868-1960) -/

/-- Python `enumerate(xs, start)`. -/
def enumFrom : Nat → List α → List (Nat × α)
  | _, [] => []
  | n, x :: xs => (n, x) :: enumFrom (n + 1) xs

/-- `"\n".join` / `"\n\n".join`. -/
def joinWith (sep : String) : List String → String
  | [] => ""
  | [x] => x
  | x :: xs => x ++ sep ++ joinWith sep xs

/-- One display block of `format_results_list` /
`format_results_list_with_offset`: status title, optional delivery line,
cashback line, optional distance line, optional link line. -/
def place_block (now : PyDateTime) (idx : Nat) (r : SRes) : String :=
  let name := if r.place.name ≠ "" then r.place.name else "Sin nombre"
  let url := if r.place.url_extra ≠ "" then r.place.url_extra else r.place.url_order
  let st := get_hours_status_from_columns r.place now
  let hours_info := st.2.1
  let title :=
    (if st.1 then
      "📍 " ++ natToString idx ++ ") " ++ name ++ " 🟢 ABIERTO"
    else
      "📍 " ++ natToString idx ++ ") " ++ name ++ " 🔴 CERRADO") ++
    (if hours_info ≠ "" then " (" ++ hours_info ++ ")" else "")
  joinWith "\n"
    ([title] ++
     (if r.place.delivery then ["🛵 Servicio a domicilio ✅"] else []) ++
     ["💳 Acumula cashback: " ++ (if r.place.cashback then "Sí 💰" else "No")] ++
     (if r.distance_text ≠ "" then ["📍 Distancia: " ++ r.distance_text] else []) ++
     (if url ≠ "" then ["🔗 Ver el lugar: " ++ url] else []))

/-- `format_results_list_with_offset` (lines 1918-1960): 1-based indices
shifted by `offset` — `enumerate(results, offset + 1)`. -/
def format_results_list_with_offset (now : PyDateTime) (results : List SRes)
    (offset : Nat) : String :=
  if results = [] then ""
  else joinWith "\n\n" ((enumFrom (offset + 1) results).map
    (fun pr => place_block now pr.1 pr.2))

/-- `format_results_list` (lines 1868-1915): same blocks with
`enumerate(results, 1)`. -/
def format_results_list (now : PyDateTime) (results : List SRes) : String :=
  if results = [] then ""
  else joinWith "\n\n" ((enumFrom 1 results).map
    (fun pr => place_block now pr.1 pr.2))

/-! ## Session and pagination state (handle_text_message /
handle_location_message, app.py lines 2598-2962 and 3008-3156)

Only the state-relevant slice of the huge webhook handlers is modelled:
the numeric-selection branch, the search branches (after the external
search call), the `more_options` branch and the location re-search,
each as a pure step function from the session fields it reads to the
reply it produces and the session fields it writes. -/

/-- `MAX_SUGGESTIONS` / `PAGINATION_SIZE` (app.py lines 408, 414). -/
def PAGINATION_SIZE : Nat := 3

/-- The `session["last_search"]` dict: craving, the full open-filtered
ranked result list, and how many entries were already shown. -/
structure LastSearch where
  craving : String
  all_results : List SRes
  shown_count : Nat
deriving DecidableEq, Repr

/-- Reply of the `more_options` branch. -/
inductive MoreReply where
  | noActive : MoreReply
  | exhausted : MoreReply
  | page (next_batch : List SRes) (offset : Nat) (remaining : Nat) : MoreReply
deriving DecidableEq, Repr

/-- The `more_options` branch (lines 2903-2962): no active search →
re-prompt; everything shown → clear the search and say so; otherwise
emit the next `PAGINATION_SIZE` slice (formatted with offset
`shown_count`) and advance `shown_count` by the slice length. -/
def handle_more_options (last_search : Option LastSearch) :
    MoreReply × Option LastSearch :=
  match last_search with
  | none => (.noActive, none)
  | some ls =>
    if ls.all_results = [] then (.noActive, some ls)
    else if ls.shown_count ≥ ls.all_results.length then (.exhausted, none)
    else
      let next_batch := (ls.all_results.drop ls.shown_count).take PAGINATION_SIZE
      (.page next_batch ls.shown_count
        (ls.all_results.length - (ls.shown_count + next_batch.length)),
       some { ls with shown_count := ls.shown_count + next_batch.length })

/-- The session fields the numeric-selection branch touches. -/
structure SessionSt where
  last_search : Option LastSearch
  last_results : List SRes
  clicked_link : Bool
  session_shown_count : Nat
deriving DecidableEq, Repr

/-- Reply of the numeric-selection branch. -/
inductive SelectReply where
  | details (r : SRes) : SelectReply
  | reprompt (upper : Nat) : SelectReply
deriving DecidableEq, Repr

/-- The numeric-selection branch (lines 2598-2659): resolve `k` against
the FULL `all_results` list (falling back to `last_results` when it is
empty), 1-based; in range → place details (and click-tracking fields
updated); out of range → `"Elige un número del 1 al N"` with the
session untouched. -/
def numeric_selection (sess : SessionSt) (k : Nat) : SelectReply × SessionSt :=
  let ar0 := match sess.last_search with
    | some ls => ls.all_results
    | none => []
  let all_results := if ar0 = [] then sess.last_results else ar0
  if 1 ≤ k then
    match all_results.get? (k - 1) with
    | some r =>
      (.details r,
       { sess with clicked_link := true,
                   session_shown_count := sess.session_shown_count + 1 })
    | none => (.reprompt all_results.length, sess)
  else (.reprompt all_results.length, sess)

/-- Reply of a text-message search branch. -/
inductive TextReply where
  | results (display : List SRes) (remaining : Nat) : TextReply
  | allClosed (hasLocation : Bool) : TextReply
deriving DecidableEq, Repr

/-- Outcome of a text-message search branch: the reply, the new
`last_search` and whether the broader any-open-nearby SQL query ran. -/
structure TextStep where
  reply : TextReply
  new_last_search : Option LastSearch
  ran_nearby_fallback : Bool
deriving DecidableEq, Repr

/-- The regular-search branch of `handle_text_message` (lines
2806-2901), applied to the list the search call returned: filter to
open places, show the first page; when nothing is open, send the
"todos ... están cerrados" message (location-dependent copy) — the
branch never runs the broader nearby query, with or without a stored
location. -/
def handle_text_search (hasLocation : Bool) (craving : String)
    (prior : Option LastSearch) (results : List SRes) : TextStep :=
  let open_results := results.filter (fun r => r.is_open_now)
  let display_results := open_results.take PAGINATION_SIZE
  if display_results ≠ [] then
    { reply := .results display_results (open_results.length - display_results.length),
      new_last_search := some ⟨craving, open_results, display_results.length⟩,
      ran_nearby_fallback := false }
  else
    { reply := .allClosed hasLocation, new_last_search := prior,
      ran_nearby_fallback := false }

/-- Reply of the location-message branch. -/
inductive LocReply where
  | results (display : List SRes) (remaining : Nat) : LocReply
  | fallbackResults (display : List SRes) (remaining : Nat) : LocReply
  | noneOpenNearby : LocReply
deriving DecidableEq, Repr

/-- Outcome of the location-message branch. -/
structure LocStep where
  reply : LocReply
  new_last_search : Option LastSearch
  ran_nearby_fallback : Bool
deriving DecidableEq, Repr

/-- The re-search part of `handle_location_message` (lines 3008-3156):
filter the craving search to open places; if empty, run the broader
nearest-20 query (`nearbyRows`, rows with their `distance_km * 1000`),
keep the open ones, and either show them or report nothing open. -/
def handle_location_search (now : PyDateTime) (craving : String)
    (prior : Option LastSearch) (results : List SRes)
    (nearbyRows : List (Place × Int)) : LocStep :=
  let open_results := results.filter (fun r => r.is_open_now)
  let display_results := open_results.take PAGINATION_SIZE
  if display_results ≠ [] then
    { reply := .results display_results (open_results.length - display_results.length),
      new_last_search := some ⟨craving, open_results, display_results.length⟩,
      ran_nearby_fallback := false }
  else
    let nearby_results := (nearbyRows.map (fun pr =>
      ({ place := pr.1, is_open_now := is_open_now_by_day pr.1 now,
         distance_meters := some pr.2,
         distance_text := format_distance pr.2 } : SRes))).filter
      (fun r => r.is_open_now)
    let nearby_display := nearby_results.take PAGINATION_SIZE
    if nearby_display ≠ [] then
      { reply := .fallbackResults nearby_display
          (nearby_results.length - nearby_display.length),
        new_last_search := some ⟨"lugares abiertos", nearby_results, nearby_display.length⟩,
        ran_nearby_fallback := true }
    else
      { reply := .noneOpenNearby, new_last_search := prior,
        ran_nearby_fallback := true }

/-- The §3 invariant on the active search:
`shown_count <= len(all_ranked_open_results)`. -/
def search_inv : Option LastSearch → Prop
  | none => True
  | some ls => ls.shown_count ≤ ls.all_results.length

instance : ∀ s, Decidable (search_inv s)
  | none => .isTrue trivial
  | some _ => inferInstanceAs (Decidable (_ ≤ _))

/-! ## The legacy hours checker `is_place_open` (app.py lines 581-690)

The `hours` argument is a JSON-ish dict (weekday key → list of
`[open, close]` pairs) whose values are dynamically typed, so they are
modelled by `PyVal`.  The function body runs inside a `try` whose
`except Exception` handler returns `(True, "")` — "assume open".  Inside
the first schedule loop, only `ValueError` / `IndexError` are caught
(and skipped with `continue`); an `AttributeError` from calling
`.split(":")` on a non-string escapes to the outer handler.  The second
loop uses a bare `except`, and the remaining code only formats values,
so the schedule loop is the body's only uncaught-exception source. -/

/-- A dynamically-typed JSON-ish Python value. -/
inductive PyVal where
  | str (s : String) : PyVal
  | num (n : Int) : PyVal
  | list (l : List PyVal) : PyVal
  | noneV : PyVal

/-- The exception classes the function distinguishes. -/
inductive PyErr where
  | valueError : PyErr
  | indexError : PyErr
  | attributeError : PyErr
deriving DecidableEq, Repr

/-- f-string rendering of a `PyVal` (only strings and numbers occur in
the rendered positions). -/
def pyValFormat : PyVal → String
  | .str s => s
  | .num n => if n < 0 then "-" ++ natToString n.natAbs else natToString n.toNat
  | .list _ => "[...]"
  | .noneV => "None"

/-- `hours.get(key, default)` on a dict. -/
def dictGet (d : List (String × PyVal)) (k : String) (dflt : PyVal) : PyVal :=
  match d.find? (fun kv => kv.1 == k) with
  | some kv => kv.2
  | none => dflt

/-- `days_order[i]`: the weekday keys of the `hours` dict. -/
def dayKey : Nat → String
  | 0 => "mon"
  | 1 => "tue"
  | 2 => "wed"
  | 3 => "thu"
  | 4 => "fri"
  | 5 => "sat"
  | _ => "sun"

/-- `v.split(":")`: `AttributeError` on a non-string. -/
def pySplitColon : PyVal → Except PyErr (List String)
  | .str s => .ok ((splitOnColon s.data).map String.mk)
  | _ => .error .attributeError

/-- `int(s)`: `ValueError` unless the (stripped) string is numeric. -/
def pyInt (s : String) : Except PyErr Int :=
  let t := pyStrip s
  if t ≠ "" && t.data.all Char.isDigit then .ok (digitsVal t.data)
  else .error .valueError

/-- `parts[i]`: `IndexError` past the end. -/
def listIdx (l : List String) (i : Nat) : Except PyErr String :=
  match l.get? i with
  | some x => .ok x
  | none => .error .indexError

/-- `datetime.time(h, m)`: `ValueError` outside the clock ranges. -/
def pyDtTime (h m : Int) : Except PyErr Tod :=
  if 0 ≤ h ∧ h ≤ 23 ∧ 0 ≤ m ∧ m ≤ 59 then .ok ⟨h.toNat, m.toNat, 0⟩
  else .error .valueError

/-- The `try` body of the first schedule loop:
`open_parts = open_str.split(":")`, `close_parts = close_str.split(":")`,
`open_time = dt_time(int(open_parts[0]), int(open_parts[1]))`,
`close_time = dt_time(int(close_parts[0]), int(close_parts[1]))`. -/
def parseSchedTimes (open_v close_v : PyVal) : Except PyErr (Tod × Tod) := do
  let op ← pySplitColon open_v
  let cp ← pySplitColon close_v
  let oh ← listIdx op 0
  let ohn ← pyInt oh
  let om ← listIdx op 1
  let omn ← pyInt om
  let ot ← pyDtTime ohn omn
  let ch ← listIdx cp 0
  let chn ← pyInt ch
  let cm ← listIdx cp 1
  let cmn ← pyInt cm
  let ct ← pyDtTime chn cmn
  pure (ot, ct)

/-- One iteration of the first schedule loop: skip non-`[open, close]`
entries; catch `ValueError`/`IndexError` from the parse (→ `continue`);
on a parsed interval, the normal (`open < close`) or cross-midnight
check against the current time; a hit returns the matched close string
(rendered as `(True, "hasta " + close_str)` by the caller). -/
def loop1Sched (current : Tod) (sch : PyVal) : Except PyErr (Option String) :=
  match sch with
  | .list items =>
    if items.length ≥ 2 then
      let open_v := (items.get? 0).getD .noneV
      let close_v := (items.get? 1).getD .noneV
      match parseSchedTimes open_v close_v with
      | .error .valueError => .ok none
      | .error .indexError => .ok none
      | .error e => .error e
      | .ok (ot, ct) =>
        if ot.secs < ct.secs then
          if ot.secs ≤ current.secs && current.secs ≤ ct.secs then
            .ok (some (pyValFormat close_v))
          else .ok none
        else
          if current.secs ≥ ot.secs || current.secs ≤ ct.secs then
            .ok (some (pyValFormat close_v))
          else .ok none
    else .ok none
  | _ => .ok none

/-- The first schedule loop over `day_hours`. -/
def loop1 (current : Tod) : List PyVal → Except PyErr (Option String)
  | [] => .ok none
  | sch :: rest =>
    match loop1Sched current sch with
    | .error e => .error e
    | .ok (some s) => .ok (some s)
    | .ok none => loop1 current rest

/-- The second loop ("opens later today"): bare `except: continue`, so
it never raises; a hit returns the original open string. -/
def loop2 (current : Tod) : List PyVal → Option String
  | [] => none
  | sch :: rest =>
    match sch with
    | .list items =>
      if items.length ≥ 2 then
        let open_v := (items.get? 0).getD .noneV
        let hit : Option String :=
          match (do
            let op ← pySplitColon open_v
            let oh ← listIdx op 0
            let ohn ← pyInt oh
            let om ← listIdx op 1
            let omn ← pyInt om
            pyDtTime ohn omn : Except PyErr Tod) with
          | .ok ot => if ot.secs > current.secs then some (pyValFormat open_v) else none
          | .error _ => none
        match hit with
        | some s => some s
        | none => loop2 current rest
      else loop2 current rest
    | _ => loop2 current rest

/-- Spanish day names of the legacy checker's `day_names_es` dict. -/
def dayNameLegacy (i : Nat) : String := dayNameEs i

/-- The third loop: scan the next 7 weekdays for a non-empty schedule
list whose first entry is an `[open, ...]` pair of length ≥ 2; the open
value is rendered into the message without parsing. -/
def loop3 (hours : List (String × PyVal)) (weekday : Nat) :
    Nat → Nat → Option (String × String)
  | _, 0 => none
  | offset, fuel + 1 =>
    let idx := (weekday + offset) % 7
    match dictGet hours (dayKey idx) (.list []) with
    | .list (first :: _) =>
      (match first with
       | .list items =>
         if items.length ≥ 2 then
           some (dayNameLegacy idx, pyValFormat ((items.get? 0).getD .noneV))
         else loop3 hours weekday (offset + 1) fuel
       | _ => loop3 hours weekday (offset + 1) fuel)
    | _ => loop3 hours weekday (offset + 1) fuel

/-- The body of `is_place_open`'s outer `try`. -/
def is_place_open_body (hours : List (String × PyVal)) (now : PyDateTime) :
    Except PyErr (Bool × String) :=
  let current := now.tod
  let w := now.date.weekday
  let day_hours := dictGet hours (dayKey w) (.list [])
  let schedList := match day_hours with
    | .list l => l
    | _ => []
  match loop1 current schedList with
  | .error e => .error e
  | .ok (some closeS) => .ok (true, "hasta " ++ closeS)
  | .ok none =>
    match loop2 current schedList with
    | some openS => .ok (false, "abre a las " ++ openS)
    | none =>
      match loop3 hours w 1 7 with
      | some dn => .ok (false, "abre " ++ dn.1 ++ " a las " ++ dn.2)
      | none => .ok (false, "")

/-- `is_place_open`: empty/missing hours dict → closed with "horario no
disponible"; otherwise the body, with any escaped exception turned into
`(True, "")` — the assume-open fallback. -/
def is_place_open (hours : List (String × PyVal)) (now : PyDateTime) :
    Bool × String :=
  if hours.isEmpty then (false, "horario no disponible")
  else
    match is_place_open_body hours now with
    | .ok r => r
    | .error _ => (true, "")

/-! ## Concrete instances used by witnesses and counterexamples -/

/-- A place open Sundays 22:00-02:00 only. -/
def sundayBar : Place :=
  { id := 1, name := "Bar Domingo", category := "", categories := [],
    products := [], cashback := false, priority := 0, lat := none, lng := none,
    delivery := false, url_extra := "", url_order := "",
    sun_open := some "22:00", sun_close := some "02:00" }

/-- A place open Fridays 22:00-02:00 only. -/
def fridayBar : Place :=
  { id := 2, name := "Bar Viernes", category := "", categories := [],
    products := [], cashback := false, priority := 0, lat := none, lng := none,
    delivery := false, url_extra := "", url_order := "",
    fri_open := some "22:00", fri_close := some "02:00" }

/-- A place with a half-filled Friday slot (open set, close null). -/
def halfSlotBar : Place :=
  { id := 3, name := "Bar Mitad", category := "", categories := [],
    products := [], cashback := false, priority := 0, lat := none, lng := none,
    delivery := false, url_extra := "", url_order := "",
    fri_open := some "10:00" }

/-- A taco place with Monday hours, for the tier-cascade witness. -/
def tacoPlace : Place :=
  { id := 4, name := "Taquería Uno", category := "tacos",
    categories := ["tacos"], products := [], cashback := false, priority := 0,
    lat := none, lng := none, delivery := false, url_extra := "", url_order := "",
    mon_open := some "09:00", mon_close := some "18:00" }

/-- Closer sushi-expansion place with ONE matching category element. -/
def rollosNear : Place :=
  { id := 1, name := "Rollos Cerca", category := "",
    categories := ["rollos"], products := [], cashback := false, priority := 0,
    lat := some 100, lng := some 0, delivery := false, url_extra := "", url_order := "",
    mon_open := some "09:00", mon_close := some "18:00" }

/-- Farther sushi-expansion place with TWO matching category elements. -/
def rollosFar : Place :=
  { id := 2, name := "Rollos Lejos", category := "",
    categories := ["rollos", "rollos especiales"], products := [],
    cashback := false, priority := 0, lat := some 5000, lng := some 0,
    delivery := false, url_extra := "", url_order := "",
    mon_open := some "09:00", mon_close := some "18:00" }

/-- A distance function for witnesses: reads the place latitude as the
distance in metres. -/
def havLat : Int → Int → Int → Int → Int := fun _ _ plat _ => plat

/-- Monday 2025-01-06, noon. -/
def mondayNoon : PyDateTime := ⟨⟨2025, 1, 6⟩, ⟨12, 0, 0⟩⟩

/-- A trivial open search result with the given id, for session data. -/
def mkRes (i : Nat) : SRes :=
  { place :=
      { id := i, name := "Lugar " ++ natToString i, category := "",
        categories := [], products := [], cashback := false, priority := 0,
        lat := none, lng := none, delivery := false,
        url_extra := "", url_order := "" },
    is_open_now := true, distance_meters := none, distance_text := "" }

/-- Ten ranked open results. -/
def tenResults : List SRes :=
  [mkRes 1, mkRes 2, mkRes 3, mkRes 4, mkRes 5,
   mkRes 6, mkRes 7, mkRes 8, mkRes 9, mkRes 10]

/-- An active search: ten open results, first page (3) shown. -/
def tenSearch : LastSearch :=
  { craving := "tacos", all_results := tenResults, shown_count := 3 }

/-- Session holding `tenSearch` with the first page displayed. -/
def tenSession : SessionSt :=
  { last_search := some tenSearch, last_results := tenResults.take 3,
    clicked_link := false, session_shown_count := 0 }

/-- One closed result (a craving match that is closed right now). -/
def closedOnly : List SRes :=
  [{ place := tacoPlace, is_open_now := false,
     distance_meters := none, distance_text := "" }]

/-- An `hours` dict whose Monday schedule holds a non-string open value:
`.split(":")` on it raises `AttributeError`, escaping to the outer
handler. -/
def badHours : List (String × PyVal) :=
  [("mon", .list [.list [.num 22, .str "02:00"]])]

/-! ## Predicates used in the theorem statements -/

/-- A half-filled weekday slot: exactly one of the open/close columns is
NULL. -/
def exactly_one_null (p : Place) (d : Nat) : Prop :=
  (slotOpen p d = none ∧ (slotClose p d).isSome) ∨
  ((slotOpen p d).isSome ∧ slotClose p d = none)

instance (p : Place) (d : Nat) : Decidable (exactly_one_null p d) := by
  unfold exactly_one_null; exact inferInstance

/-- The `ORDER BY cashback DESC, priority DESC, id ASC` order, read off
the annotated results of the location-less searches. -/
def resLeNoLoc (a b : SRes) : Prop := placeLeNoLoc a.place b.place

/-- The same with the AI-expansion match-count key. -/
def resLeNoLocAI (terms : List String) (a b : SRes) : Prop :=
  placeLeNoLocAI terms a.place b.place

/-- The `ORDER BY cashback DESC, priority DESC, distance ASC` order,
read off the annotated results of the with-location searches. -/
def resLeLoc (a b : SRes) : Prop :=
  lex3Le (cashRank a.place, -a.place.priority, a.distance_meters.getD 999999)
    (cashRank b.place, -b.place.priority, b.distance_meters.getD 999999)

/-- The AI-expansion with-location order: cashback, priority, then
match-count (descending) BEFORE distance. -/
def resLeLocAI (terms : List String) (a b : SRes) : Prop :=
  lex4Le
    (cashRank a.place, -a.place.priority,
      -(product_match_score terms a.place : Int), a.distance_meters.getD 999999)
    (cashRank b.place, -b.place.priority,
      -(product_match_score terms b.place : Int), b.distance_meters.getD 999999)

/-- C1 (code bug evidence): a place whose only slot is Sunday
22:00-02:00 is reported OPEN at Sunday 2025-01-05 23:30 but CLOSED at
Monday 2025-01-06 01:30 — the before-6AM re-check anchors Sunday's slot
6 days AHEAD (`days_diff = 6 - 0`) instead of one day back, so the claim
and spec P1 fail on the code whenever the following day is a Monday. -/
theorem C1_sunday_monday_eval :
    is_open_now_by_day sundayBar ⟨⟨2025, 1, 5⟩, ⟨23, 30, 0⟩⟩ = true ∧
    is_open_now_by_day sundayBar ⟨⟨2025, 1, 6⟩, ⟨1, 30, 0⟩⟩ = false ∧
    is_open_now_by_day sundayBar ⟨⟨2025, 1, 6⟩, ⟨3, 0, 0⟩⟩ = false ∧
    is_open_now_by_day sundayBar ⟨⟨2025, 1, 5⟩, ⟨21, 0, 0⟩⟩ = false := by
  decide

/-- C2: if the exact-element category search (Tier 1) returns at least
one row, `search_places_without_location` returns exactly that set and
the broad substring tier never contributes. -/
theorem C2_tier1_short_circuit (now : PyDateTime) (catalog : List Place)
    (craving : String) (lim : Nat)
    (h : search_exact_in_categories now catalog craving lim ≠ []) :
    search_places_without_location now catalog craving lim =
      search_exact_in_categories now catalog craving lim := by
  have hc : craving ≠ "" := by
    intro hc
    apply h
    simp [search_exact_in_categories, hc]
  simp [search_places_without_location, hc, h]

/-- C2 witness: a concrete catalog where Tier 1 hits and the cascade
returns its set. -/
theorem C2_witness :
    search_exact_in_categories mondayNoon [tacoPlace] "tacos" 10 ≠ [] ∧
    search_places_without_location mondayNoon [tacoPlace] "tacos" 10 =
      search_exact_in_categories mondayNoon [tacoPlace] "tacos" 10 :=
  ⟨by decide, C2_tier1_short_circuit mondayNoon [tacoPlace] "tacos" 10 (by decide)⟩

/-- C8: a weekday slot with exactly one of open/close NULL is treated as
having no hours: the day-check is false and the day-status is
`(False, "", False)`, for every current instant. -/
theorem C8_half_slot (p : Place) (now : PyDateTime) (d : Nat)
    (h : exactly_one_null p d) :
    check_day p now d = false ∧ check_day_status p now d = (false, "", false) := by
  have hf : (strFalsy (slotOpen p d) || strFalsy (slotClose p d)) = true := by
    rcases h with ⟨h1, _⟩ | ⟨_, h2⟩
    · simp [strFalsy, h1]
    · simp [strFalsy, h2]
  constructor
  · simp [check_day, hf]
  · simp [check_day_status, hf]

/-- C8 witness: the half-filled Friday slot at a Friday noon. -/
theorem C8_witness :
    check_day halfSlotBar ⟨⟨2025, 1, 10⟩, ⟨12, 0, 0⟩⟩ 4 = false ∧
    check_day_status halfSlotBar ⟨⟨2025, 1, 10⟩, ⟨12, 0, 0⟩⟩ 4 = (false, "", false) :=
  C8_half_slot halfSlotBar ⟨⟨2025, 1, 10⟩, ⟨12, 0, 0⟩⟩ 4 (by decide)

/-- C10: when today's slot crosses midnight (parsed close ≤ parsed open)
and today is the last day of its month, `replace(day=day+1)` raises and
the handler reports closed: the day-check is false, the full resolver
returns False (for evening instants, hour ≥ 6, where only today's check
runs), and the day-status is `(False, "", False)` — even inside the
open window. -/
theorem addDays_zero (d : Pdate) : d.addDays 0 = d := rfl

theorem C10_month_end_closed (p : Place) (now : PyDateTime) (ot ct : Tod)
    (hno : strFalsy (slotOpen p now.date.weekday) = false)
    (hnc : strFalsy (slotClose p now.date.weekday) = false)
    (hopen : parse_time ((slotOpen p now.date.weekday).getD "") = some ot)
    (hclose : parse_time ((slotClose p now.date.weekday).getD "") = some ct)
    (hcross : ct.secs ≤ ot.secs)
    (hlast : now.date.day = daysInMonth now.date.year now.date.month)
    (hhour : 6 ≤ now.tod.hh) :
    is_open_now_by_day p now = false ∧
    check_day p now now.date.weekday = false ∧
    check_day_status p now now.date.weekday = (false, "", false) := by
  have hle : PyDateTime.le ⟨now.date, ct⟩ ⟨now.date, ot⟩ = true := by
    simp [PyDateTime.le, hcross]
  have hrep : PyDateTime.replaceDaySucc ⟨now.date, ct⟩ = none := by
    simp [PyDateTime.replaceDaySucc]
    omega
  have hcd : check_day p now now.date.weekday = false := by
    simp only [check_day, hno, hnc, hopen, hclose, Bool.or_self, Bool.false_eq_true,
      if_false, sub_self, addDays_zero, hle, if_true, hrep]
  have hst : check_day_status p now now.date.weekday = (false, "", false) := by
    simp only [check_day_status, hno, hnc, hopen, hclose, Bool.or_self, Bool.false_eq_true,
      if_false, hle, if_true, hrep]
  refine ⟨?_, hcd, hst⟩
  unfold is_open_now_by_day
  rw [hcd]
  simp only [Bool.false_eq_true, if_false]
  rw [if_neg]
  omega

/-- C10 witness: Friday 22:00-02:00 at Friday 2025-01-31 23:30 (last day
of January, inside the open window) is reported closed. -/
theorem C10_witness :
    is_open_now_by_day fridayBar ⟨⟨2025, 1, 31⟩, ⟨23, 30, 0⟩⟩ = false ∧
    check_day fridayBar ⟨⟨2025, 1, 31⟩, ⟨23, 30, 0⟩⟩ 4 = false ∧
    check_day_status fridayBar ⟨⟨2025, 1, 31⟩, ⟨23, 30, 0⟩⟩ 4 = (false, "", false) := by
  have h := C10_month_end_closed fridayBar ⟨⟨2025, 1, 31⟩, ⟨23, 30, 0⟩⟩
    ⟨22, 0, 0⟩ ⟨2, 0, 0⟩ (by decide) (by decide) (by decide) (by decide)
    (by decide) (by decide) (by decide)
  have hw : Pdate.weekday ⟨2025, 1, 31⟩ = 4 := by decide
  exact ⟨h.1, by rw [← hw]; exact h.2.1, by rw [← hw]; exact h.2.2⟩

/-- The indices `enumerate(results, n)` assigns. -/
theorem enumFrom_map_fst (l : List α) (n : Nat) :
    (enumFrom n l).map Prod.fst = List.range' n l.length := by
  induction l generalizing n with
  | nil => rfl
  | cons x xs ih => simp [enumFrom, List.range', ih]

/-- C5: with 3 of at least 6 open results shown, `more_options` advances
`shown_count` to 6 and renders the slice `all_results[3:6]` with offset
3, whose `enumerate(·, offset + 1)` indices are exactly 4, 5, 6. -/
theorem C5_pagination (now : PyDateTime) (ls : LastSearch)
    (h3 : ls.shown_count = 3) (h6 : 6 ≤ ls.all_results.length) :
    (handle_more_options (some ls)).2 = some { ls with shown_count := 6 } ∧
    (handle_more_options (some ls)).1 =
      .page ((ls.all_results.drop 3).take 3) 3 (ls.all_results.length - 6) ∧
    (enumFrom (3 + 1) ((ls.all_results.drop 3).take 3)).map Prod.fst = [4, 5, 6] ∧
    format_results_list_with_offset now ((ls.all_results.drop 3).take 3) 3 =
      joinWith "\n\n" ((enumFrom (3 + 1) ((ls.all_results.drop 3).take 3)).map
        (fun pr => place_block now pr.1 pr.2)) := by
  have hne : ls.all_results ≠ [] := by
    intro h
    rw [h] at h6
    simp at h6
  have hlt : ¬ ls.shown_count ≥ ls.all_results.length := by omega
  have hlen : ((ls.all_results.drop 3).take 3).length = 3 := by
    simp [List.length_take, List.length_drop]
    omega
  have hbatchne : (ls.all_results.drop 3).take 3 ≠ [] := by
    intro h
    rw [h] at hlen
    simp at hlen
  have hgt : ¬ ls.all_results.length ≤ 3 := by omega
  refine ⟨?_, ?_, ?_, ?_⟩
  · simp [handle_more_options, hne, hlt, h3, PAGINATION_SIZE, hlen, hgt]
  · simp [handle_more_options, hne, hlt, h3, PAGINATION_SIZE, hlen, hgt]
  · rw [enumFrom_map_fst, hlen]
    rfl
  · simp [format_results_list_with_offset, hbatchne]

/-- C5 witness: ten results with 3 shown — page 2 is numbered 4, 5, 6
and `shown_count` becomes 6. -/
theorem C5_witness :
    (handle_more_options (some tenSearch)).2 = some { tenSearch with shown_count := 6 } ∧
    (enumFrom (3 + 1) ((tenSearch.all_results.drop 3).take 3)).map Prod.fst = [4, 5, 6] := by
  have h := C5_pagination mondayNoon tenSearch rfl (by decide)
  exact ⟨h.1, h.2.2.1⟩

/-- C6: a numeric reply is resolved against the FULL result list: in
range (1-based) it selects that element of `all_results`; out of range
it re-prompts with the valid upper bound and leaves the session
unchanged. -/
theorem C6_selection (sess : SessionSt) (ls : LastSearch) (k : Nat)
    (hls : sess.last_search = some ls) (hne : ls.all_results ≠ []) :
    (∀ r, 1 ≤ k → ls.all_results.get? (k - 1) = some r →
       numeric_selection sess k =
         (.details r,
          { sess with clicked_link := true, session_shown_count := sess.session_shown_count + 1 })) ∧
    (¬(1 ≤ k ∧ k ≤ ls.all_results.length) →
       numeric_selection sess k = (.reprompt ls.all_results.length, sess)) := by
  constructor
  · intro r h1 hget
    rw [List.get?_eq_getElem?] at hget
    simp [numeric_selection, hls, hne, h1, hget]
  · intro hout
    rcases Nat.lt_or_ge k 1 with hk | hk
    · have hnk : ¬ 1 ≤ k := by omega
      simp [numeric_selection, hls, hne, hnk]
    · have hnone : ls.all_results.get? (k - 1) = none := by
        rw [List.get?_eq_none]
        omega
      rw [List.get?_eq_getElem?] at hnone
      simp [numeric_selection, hls, hne, hk, hnone]

/-- C6 witness: ten results, 3 displayed; "7" selects result 7, "11"
re-prompts with range 1..10 and the session is untouched. -/
theorem C6_witness :
    numeric_selection tenSession 7 =
      (.details (mkRes 7),
       { tenSession with clicked_link := true, session_shown_count := tenSession.session_shown_count + 1 }) ∧
    numeric_selection tenSession 11 = (.reprompt 10, tenSession) := by
  have h7 := (C6_selection tenSession tenSearch 7 rfl (by decide)).1 (mkRes 7)
    (by decide) (by decide)
  have h11 := (C6_selection tenSession tenSearch 11 rfl (by decide)).2 (by decide)
  exact ⟨h7, h11⟩

/-- C7: the invariant `shown_count <= len(all_ranked_open_results)` is
established by a new text search, preserved by `more_options`, and
established by the location re-search (including its nearby fallback). -/
theorem C7_shown_count_inv (hasLocation : Bool) (now : PyDateTime)
    (craving : String) (prior : Option LastSearch) (results : List SRes)
    (nearbyRows : List (Place × Int)) (s : Option LastSearch)
    (hprior : search_inv prior) (hs : search_inv s) :
    search_inv (handle_text_search hasLocation craving prior results).new_last_search ∧
    search_inv (handle_more_options s).2 ∧
    search_inv (handle_location_search now craving prior results nearbyRows).new_last_search := by
  refine ⟨?_, ?_, ?_⟩
  · simp only [handle_text_search]
    split
    · simp [search_inv, List.length_take]
    · exact hprior
  · cases s with
    | none => exact trivial
    | some ls =>
      by_cases h1 : ls.all_results = []
      · simpa [handle_more_options, h1] using hs
      · by_cases h2 : ls.shown_count ≥ ls.all_results.length
        · simp [handle_more_options, h1, h2, search_inv]
        · simp only [handle_more_options, h1, h2, if_false, if_neg, search_inv]
          simp [search_inv, List.length_take, List.length_drop]
          omega
  · simp only [handle_location_search]
    split
    · simp [search_inv, List.length_take]
    · split
      · simp [search_inv, List.length_take]
      · exact hprior

/-- C7 witness: the invariant after a concrete new search, a concrete
`more_options` step, and a concrete location re-search. -/
theorem C7_witness :
    search_inv (handle_text_search true "tacos" none tenResults).new_last_search ∧
    search_inv (handle_more_options (some tenSearch)).2 ∧
    search_inv (handle_location_search mondayNoon "tacos" none tenResults []).new_last_search :=
  C7_shown_count_inv true mondayNoon "tacos" none tenResults [] (some tenSearch)
    trivial (by decide)

/-- C4 counterexample: a text-message search with a stored location and
an all-closed result set replies "all closed" WITHOUT running the
broader any-open-nearby query — the fallback does not fire in this
location-known path, contradicting the claim. -/
theorem C4_counterexample :
    closedOnly.filter (fun r => r.is_open_now) = [] ∧
    (handle_text_search true "tacos" none closedOnly).ran_nearby_fallback = false ∧
    (handle_text_search true "tacos" none closedOnly).reply = .allClosed true := by
  decide

/-- C4 (amended): the broader any-open-nearby query runs exactly in the
location-message handler when the open-filtered craving set is empty;
the text-message search branches never run it and reply "all closed"
(location-dependent copy) on an empty open set. -/
theorem C4_fallback_amended :
    (∀ (now : PyDateTime) (craving : String) (prior : Option LastSearch)
       (results : List SRes) (nearbyRows : List (Place × Int)),
       (handle_location_search now craving prior results nearbyRows).ran_nearby_fallback
         = true ↔ results.filter (fun r => r.is_open_now) = []) ∧
    (∀ (hasLocation : Bool) (craving : String) (prior : Option LastSearch)
       (results : List SRes),
       (handle_text_search hasLocation craving prior results).ran_nearby_fallback = false) ∧
    (∀ (hasLocation : Bool) (craving : String) (prior : Option LastSearch)
       (results : List SRes),
       results.filter (fun r => r.is_open_now) = [] →
       (handle_text_search hasLocation craving prior results).reply
         = .allClosed hasLocation) := by
  refine ⟨?_, ?_, ?_⟩
  · intro now craving prior results nearbyRows
    by_cases hopen : results.filter (fun r => r.is_open_now) = []
    · constructor
      · intro _
        exact hopen
      · intro _
        simp only [handle_location_search, hopen]
        rw [if_neg (by simp)]
        split <;> rfl
    · have hd : (results.filter (fun r => r.is_open_now)).take PAGINATION_SIZE ≠ [] := by
        intro h
        rcases List.take_eq_nil_iff.mp h with h0 | hl
        · simp [PAGINATION_SIZE] at h0
        · exact hopen hl
      constructor
      · intro hran
        exfalso
        simp only [handle_location_search] at hran
        rw [if_pos hd] at hran
        simp at hran
      · intro hfil
        exact absurd hfil hopen
  · intro hasLocation craving prior results
    simp only [handle_text_search]
    split <;> rfl
  · intro hasLocation craving prior results hopen
    simp [handle_text_search, hopen]

/-- C4 witness for the amended statement: with a stored location and an
all-closed craving set, the location-message handler DOES run the
broader query. -/
theorem C4_witness :
    (handle_location_search mondayNoon "tacos" none closedOnly []).ran_nearby_fallback
      = true :=
  (C4_fallback_amended.1 mondayNoon "tacos" none closedOnly []).mpr (by decide)

/-- Any `ok` result of the body with first component `true` came from
the first schedule loop and carries a `"hasta ..."` hint. -/
theorem is_place_open_body_true_shape (hours : List (String × PyVal))
    (now : PyDateTime) (b : Bool) (s : String)
    (h : is_place_open_body hours now = .ok (b, s)) (hb : b = true) :
    ∃ t, s = "hasta " ++ t := by
  unfold is_place_open_body at h
  dsimp only at h
  split at h
  · exact absurd h (by simp)
  · simp only [Except.ok.injEq, Prod.mk.injEq] at h
    exact ⟨_, h.2.symm⟩
  · split at h
    · simp only [Except.ok.injEq, Prod.mk.injEq] at h
      rw [← h.1] at hb
      cases hb
    · split at h
      · simp only [Except.ok.injEq, Prod.mk.injEq] at h
        rw [← h.1] at hb
        cases hb
      · simp only [Except.ok.injEq, Prod.mk.injEq] at h
        rw [← h.1] at hb
        cases hb

/-- The body never raises on an empty hours dict. -/
theorem is_place_open_body_nil (now : PyDateTime) :
    is_place_open_body [] now = .ok (false, "") := rfl

/-- C9: the legacy checker returns the assume-open `(True, "")` exactly
when its body raised an exception that escaped to the outer handler;
every non-raising evaluation yields either an open result with a
non-empty "hasta" hint or a closed result. -/
theorem C9_assume_open (hours : List (String × PyVal)) (now : PyDateTime) :
    is_place_open hours now = (true, "") ↔
      ∃ e, is_place_open_body hours now = .error e := by
  constructor
  · intro h
    unfold is_place_open at h
    by_cases hemp : hours.isEmpty
    · rw [if_pos hemp] at h
      exact absurd h (by simp)
    · rw [if_neg hemp] at h
      cases hb : is_place_open_body hours now with
      | ok r =>
        rw [hb] at h
        rcases r with ⟨b, s⟩
        have hbs : b = true ∧ s = "" := by
          simpa using congrArg (fun x => x) h
        obtain ⟨t, ht⟩ :=
          is_place_open_body_true_shape hours now b s hb hbs.1
        rw [hbs.2] at ht
        have h2 := congrArg String.data ht.symm
        simp [String.data] at h2
      | error e => exact ⟨e, rfl⟩
  · rintro ⟨e, he⟩
    unfold is_place_open
    have hemp : hours.isEmpty = false := by
      cases hours with
      | nil =>
        rw [is_place_open_body_nil] at he
        exact absurd he (by simp)
      | cons a l => rfl
    rw [if_neg (by simp [hemp])]
    rw [he]

/-- C9 witness: a Monday schedule entry whose open value is the number
22 (not a string): `.split(":")` raises `AttributeError`, the outer
handler swallows it, and the place is reported open with an empty
hint. -/
theorem C9_witness : is_place_open badHours mondayNoon = (true, "") :=
  (C9_assume_open badHours mondayNoon).mpr ⟨.attributeError, rfl⟩

/-- Mapping the first `n` of an insertion-sorted list stays sorted under
any order the map reflects. -/
theorem sorted_take_map {α β : Type} (r : α → α → Prop) [DecidableRel r]
    [IsTotal α r] [IsTrans α r] (rr : β → β → Prop) (f : α → β)
    (hf : ∀ a b, r a b → rr (f a) (f b)) (l : List α) (n : Nat) :
    List.Sorted rr (((List.insertionSort r l).take n).map f) := by
  have hs : List.Sorted r (List.insertionSort r l) := List.sorted_insertionSort r l
  have ht : List.Sorted r ((List.insertionSort r l).take n) :=
    List.Pairwise.sublist (List.take_sublist _ _) hs
  rw [List.Sorted, List.pairwise_map]
  exact ht.imp (fun h => hf _ _ h)

/-- The exact-category tier is sorted by cashback, priority, id. -/
theorem sorted_search_exact (now : PyDateTime) (catalog : List Place)
    (craving : String) (lim : Nat) :
    List.Sorted resLeNoLoc (search_exact_in_categories now catalog craving lim) := by
  unfold search_exact_in_categories
  split
  · exact List.sorted_nil
  · exact sorted_take_map placeLeNoLoc resLeNoLoc (annotateNoLoc now)
      (fun _ _ h => h) _ _

/-- The whole location-less cascade is sorted by cashback, priority, id. -/
theorem sorted_search_without_location (now : PyDateTime) (catalog : List Place)
    (craving : String) (lim : Nat) :
    List.Sorted resLeNoLoc (search_places_without_location now catalog craving lim) := by
  unfold search_places_without_location
  split
  · exact List.sorted_nil
  · dsimp only
    split
    · exact sorted_search_exact now catalog craving lim
    · exact sorted_take_map placeLeNoLoc resLeNoLoc (annotateNoLoc now)
        (fun _ _ h => h) _ _

/-- The with-location cascade is sorted by cashback, priority, distance. -/
theorem sorted_search_with_location (hav : Int → Int → Int → Int → Int)
    (now : PyDateTime) (catalog : List Place) (craving : String)
    (ulat ulng : Int) (lim : Nat) :
    List.Sorted resLeLoc
      (search_places_with_location hav now catalog craving ulat ulng lim) := by
  unfold search_places_with_location
  split
  · exact List.sorted_nil
  · dsimp only
    split
    · exact sorted_take_map pairLeLoc resLeLoc (annotateLoc now)
        (fun _ _ h => h) _ _
    · exact sorted_take_map pairLeLoc resLeLoc (annotateLoc now)
        (fun _ _ h => h) _ _

/-- Branch shape of the location-less AI wrapper: either the exact-term
stage answered (`used_expansion = false`) or the expansion query did. -/
theorem ai_noloc_shape (now : PyDateTime) (catalog : List Place)
    (craving : String) (terms : List String) (lim : Nat) :
    ((search_places_without_location_ai now catalog craving terms lim).2 = false ∧
     (search_places_without_location_ai now catalog craving terms lim).1 =
       search_places_without_location now catalog craving lim) ∨
    ((search_places_without_location_ai now catalog craving terms lim).2 = true ∧
     (search_places_without_location_ai now catalog craving terms lim).1 =
       ((List.insertionSort (placeLeNoLocAI terms)
          (catalog.filter (fun p => expandedPred terms p && today_filter_ok now p))).take
            lim).map (annotateNoLoc now)) := by
  unfold search_places_without_location_ai
  by_cases hc : craving = ""
  · left
    constructor
    · simp [hc]
    · simp [hc, search_places_without_location]
  · rw [if_neg hc]
    dsimp only
    split
    · left
      exact ⟨rfl, rfl⟩
    · right
      exact ⟨rfl, rfl⟩

/-- Branch shape of the with-location AI wrapper. -/
theorem ai_loc_shape (hav : Int → Int → Int → Int → Int) (now : PyDateTime)
    (catalog : List Place) (craving : String) (ulat ulng : Int)
    (terms : List String) (lim : Nat) :
    ((search_places_with_location_ai hav now catalog craving ulat ulng terms lim).2
        = false ∧
     (search_places_with_location_ai hav now catalog craving ulat ulng terms lim).1 =
       search_places_with_location hav now catalog craving ulat ulng lim) ∨
    ((search_places_with_location_ai hav now catalog craving ulat ulng terms lim).2
        = true ∧
     (search_places_with_location_ai hav now catalog craving ulat ulng terms lim).1 =
       ((List.insertionSort (pairLeLocAI terms)
          ((catalog.filter (fun p => expandedPred terms p && today_filter_ok now p)).map
            (fun p => (p, distOf hav ulat ulng p)))).take lim).map
         (annotateLoc now)) := by
  unfold search_places_with_location_ai
  by_cases hc : craving = ""
  · left
    constructor
    · simp [hc]
    · simp [hc, search_places_with_location]
  · rw [if_neg hc]
    dsimp only
    split
    · left
      exact ⟨rfl, rfl⟩
    · right
      exact ⟨rfl, rfl⟩

/-- C3 (amended): ordering in every search path as actually implemented.
Cashback-first, then priority descending, hold everywhere; the distance
(resp. id) tiebreak follows directly in the non-expansion paths, while
BOTH AI-expansion queries insert a category-match-count tiebreak
(descending) before the distance/id key — the `used_expansion` flag of
the `_ai` wrappers tells which order the returned list obeys. -/
theorem C3_ranking_amended (hav : Int → Int → Int → Int → Int)
    (now : PyDateTime) (catalog : List Place) (craving : String)
    (ulat ulng : Int) (terms : List String) (lim : Nat) :
    List.Sorted resLeNoLoc (search_exact_in_categories now catalog craving lim) ∧
    List.Sorted resLeNoLoc (search_places_without_location now catalog craving lim) ∧
    List.Sorted resLeLoc
      (search_places_with_location hav now catalog craving ulat ulng lim) ∧
    ((search_places_without_location_ai now catalog craving terms lim).2 = false →
      List.Sorted resLeNoLoc
        (search_places_without_location_ai now catalog craving terms lim).1) ∧
    ((search_places_without_location_ai now catalog craving terms lim).2 = true →
      List.Sorted (resLeNoLocAI terms)
        (search_places_without_location_ai now catalog craving terms lim).1) ∧
    ((search_places_with_location_ai hav now catalog craving ulat ulng terms lim).2
        = false →
      List.Sorted resLeLoc
        (search_places_with_location_ai hav now catalog craving ulat ulng terms lim).1) ∧
    ((search_places_with_location_ai hav now catalog craving ulat ulng terms lim).2
        = true →
      List.Sorted (resLeLocAI terms)
        (search_places_with_location_ai hav now catalog craving ulat ulng terms lim).1) := by
  refine ⟨sorted_search_exact now catalog craving lim,
    sorted_search_without_location now catalog craving lim,
    sorted_search_with_location hav now catalog craving ulat ulng lim,
    ?_, ?_, ?_, ?_⟩
  · intro h2
    rcases ai_noloc_shape now catalog craving terms lim with ⟨_, he⟩ | ⟨ht, _⟩
    · rw [he]
      exact sorted_search_without_location now catalog craving lim
    · rw [ht] at h2
      cases h2
  · intro h2
    rcases ai_noloc_shape now catalog craving terms lim with ⟨hf, _⟩ | ⟨_, he⟩
    · rw [hf] at h2
      cases h2
    · rw [he]
      exact sorted_take_map (placeLeNoLocAI terms) (resLeNoLocAI terms)
        (annotateNoLoc now) (fun _ _ h => h) _ _
  · intro h2
    rcases ai_loc_shape hav now catalog craving ulat ulng terms lim with
      ⟨_, he⟩ | ⟨ht, _⟩
    · rw [he]
      exact sorted_search_with_location hav now catalog craving ulat ulng lim
    · rw [ht] at h2
      cases h2
  · intro h2
    rcases ai_loc_shape hav now catalog craving ulat ulng terms lim with
      ⟨hf, _⟩ | ⟨_, he⟩
    · rw [hf] at h2
      cases h2
    · rw [he]
      exact sorted_take_map (pairLeLocAI terms) (resLeLocAI terms)
        (annotateLoc now) (fun _ _ h => h) _ _

/-- C3 counterexample: with equal cashback and equal priority, the
AI-expansion location search puts the place with MORE matching category
elements first even when it is 50× farther — refuting "among equal
cashback and priority the smaller distance is ordered first ... for
every search path, including the AI-expansion fallback searches". -/
theorem C3_counterexample :
    ((search_places_with_location_ai havLat mondayNoon [rollosNear, rollosFar]
        "sushi" 0 0 ["rollos"] 10).1.map (fun r => r.place.id)) = [2, 1] ∧
    rollosNear.cashback = rollosFar.cashback ∧
    rollosNear.priority = rollosFar.priority ∧
    distOf havLat 0 0 rollosNear < distOf havLat 0 0 rollosFar ∧
    (search_places_with_location_ai havLat mondayNoon [rollosNear, rollosFar]
        "sushi" 0 0 ["rollos"] 10).2 = true := by
  decide

/-- C3 witness for the amended statement: the counterexample run is
sorted by the amended (match-count before distance) order. -/
theorem C3_witness :
    List.Sorted (resLeLocAI ["rollos"])
      ((search_places_with_location_ai havLat mondayNoon [rollosNear, rollosFar]
        "sushi" 0 0 ["rollos"] 10).1) :=
  (C3_ranking_amended havLat mondayNoon [rollosNear, rollosFar] "sushi" 0 0
    ["rollos"] 10).2.2.2.2.2.2 (by decide)
